import Mathlib

/-
Verification of the cclaw skill subsystem (skill.c) against its
natural-language specification.  The definitions below are a shallow
embedding of the C source: C strings become String, growable arrays
become List, machine integers become Nat/Int, the global registry
becomes an explicit skill_registry_t value threaded through the
operations, and fallible functions return an err_t paired with their
outputs.  External collaborators (the filesystem seen by the directory
scanner, the clock, and the shell_execute command runner) are passed in
as explicit values or functions.
-/

namespace Cclaw

/-- Error codes used by skill.c (the subset that its functions return). -/
inductive err_t where
  | ok
  | invalid_argument
  | file_not_found
  | file_read_failed
  | file_create_failed
  | out_of_memory
  | not_found
  | already_exists
  | validation_failed
  | not_implemented
  | out_of_range
deriving DecidableEq, Repr

/-- skill_arg_t: one key/value argument attached to a tool. -/
structure skill_arg_t where
  key : String
  value : String
deriving DecidableEq, Repr

/-- skill_tool_t: a tool declared by a skill manifest. -/
structure skill_tool_t where
  name : String
  description : String
  kind : String
  command : String
  args : List skill_arg_t
deriving DecidableEq, Repr

/-- skill_manifest_t: parsed manifest data. -/
structure skill_manifest_t where
  name : String
  description : String
  version : String
  author : String
  tags : List String
  tools : List skill_tool_t
  prompts : List String
  location : String
deriving DecidableEq, Repr

/-- The zeroed manifest produced by skill_manifest_init / skill_manifest_free
(memset to zero: every string empty, every array empty). -/
def skill_manifest_init : skill_manifest_t :=
  { name := "", description := "", version := "", author := ""
    tags := [], tools := [], prompts := [], location := "" }

/-- skill_t: a skill instance (manifest, loaded flag, load time). -/
structure skill_t where
  manifest : skill_manifest_t
  loaded : Bool
  load_time : Nat
deriving DecidableEq, Repr

/-- skill_registry_t: the process-wide registry state (skills array and
its capacity; skill_count is the length of the list). -/
structure skill_registry_t where
  skills : List skill_t
  capacity : Nat
deriving DecidableEq, Repr

/-- State of g_registry right after skill_registry_init on a fresh
process: no skills, zero capacity. -/
def skill_registry_init : skill_registry_t :=
  { skills := [], capacity := 0 }

/-- skill_registry_ensure_capacity: geometric growth, never below the
requested minimum, never below 8, unchanged when already large enough. -/
def skill_registry_ensure_capacity (min_capacity : Nat) (cap : Nat) : Nat :=
  if min_capacity ≤ cap then cap
  else
    let c1 := cap * 2
    let c2 := if c1 < min_capacity then min_capacity else c1
    if c2 < 8 then 8 else c2

/-- The raw append performed on g_registry: ensure capacity for one more
entry, then store the skill at index skill_count and bump the count.
Used by the success branch of skill_register and directly (with no
validation or uniqueness check) by skill_load_from_directory. -/
def registry_push (skill : skill_t) (reg : skill_registry_t) : skill_registry_t :=
  { skills := reg.skills ++ [skill]
    capacity := skill_registry_ensure_capacity (reg.skills.length + 1) reg.capacity }

/-- Names held by the registry, in storage order. -/
def registry_names (reg : skill_registry_t) : List String :=
  reg.skills.map (fun s => s.manifest.name)

/-- Per-tool validation from skill_validate: non-empty name, description
and kind, and a non-empty command when the kind is shell. -/
def skill_tool_valid (tool : skill_tool_t) : Bool :=
  tool.name.length != 0 &&
  tool.description.length != 0 &&
  tool.kind.length != 0 &&
  !(tool.kind == "shell" && tool.command.length == 0)

/-- skill_validate: non-empty manifest name and description, and every
tool valid; otherwise ERR_VALIDATION_FAILED. -/
def skill_validate (skill : skill_t) : err_t :=
  if skill.manifest.name.length == 0 then err_t.validation_failed
  else if skill.manifest.description.length == 0 then err_t.validation_failed
  else if skill.manifest.tools.all skill_tool_valid then err_t.ok
  else err_t.validation_failed

/-- skill_register: validate first (returning the validation error as
is), then reject a name collision with ERR_ALREADY_EXISTS leaving the
registry untouched, else append. -/
def skill_register (skill : skill_t) (reg : skill_registry_t) : err_t × skill_registry_t :=
  if skill_validate skill = err_t.ok then
    if reg.skills.any (fun s => s.manifest.name == skill.manifest.name) then
      (err_t.already_exists, reg)
    else
      (err_t.ok, registry_push skill reg)
  else
    (skill_validate skill, reg)

/-- A sequence of register calls, applied left to right, keeping only
the registry state (each call's error code is reported to its caller
and does not affect later calls). -/
def register_sequence : List skill_t → skill_registry_t → skill_registry_t
  | [], reg => reg
  | s :: rest, reg => register_sequence rest (skill_register s reg).2

/-- skill_unregister: find the first entry with the given name and
shift-left compact the array over it; ERR_NOT_FOUND when no entry
matches. -/
def skill_unregister (name : String) (reg : skill_registry_t) : err_t × skill_registry_t :=
  if reg.skills.any (fun s => s.manifest.name == name) then
    (err_t.ok, { reg with skills := reg.skills.eraseP (fun s => s.manifest.name == name) })
  else
    (err_t.not_found, reg)

/-- skill_unload: free the manifest (reset to the zeroed state), clear
the loaded flag and the load time; always returns ERR_OK on a non-null
skill. -/
def skill_unload (skill : skill_t) : err_t × skill_t :=
  (err_t.ok, { manifest := skill_manifest_init, loaded := false, load_time := 0 })

/-- skill_manifest_parse_toml: the source is an unimplemented stub
(marked TODO) that ignores the TOML text and fills in fixed fields. -/
def skill_manifest_parse_toml (toml : String) : skill_manifest_t :=
  { skill_manifest_init with
    name := "unknown"
    description := "Skill loaded from TOML"
    version := "0.1.0" }

/-- The line loop of skill_manifest_parse_md: walk the newline-separated
lines and return the first one that is non-empty and does not begin
with the character # (empty if no such line exists). -/
def first_content_line : List String → String
  | [] => ""
  | line :: rest =>
    if line.length > 0 && line.front != '#' then line
    else first_content_line rest

/-- skill_manifest_parse_md: name from the caller-supplied hint,
description from the first non-empty non-heading line, version fixed at
0.1.0, and nothing else extracted. -/
def skill_manifest_parse_md (md_content : String) (skill_name : String) : skill_manifest_t :=
  { skill_manifest_init with
    name := skill_name
    description := first_content_line (md_content.splitOn "\n")
    version := "0.1.0" }

/-- str_ends_with from the string utilities: does s end with the given
suffix (byte-wise comparison of the tail in the C source, character-wise
here). -/
def str_ends_with (s : String) (post : String) : Bool :=
  if post.data.length ≤ s.data.length then
    (s.data.drop (s.data.length - post.data.length)) == post.data
  else false

/-- The strstr check in skill_load: does the content contain the
substring that marks the TOML dialect. -/
def contains_skill_marker (content : String) : Bool :=
  (content.splitOn "[skill]").length > 1

/-- file_basename: the last slash-separated component of a path. -/
def file_basename (path : String) : String :=
  ((path.splitOn "/").getLast?).getD path

/-- Truncation at the last dot performed on the basename in skill_load
(strrchr then overwrite with NUL). -/
def drop_extension (s : String) : String :=
  let parts := s.splitOn "."
  if parts.length ≤ 1 then s else String.intercalate "." parts.dropLast

/-- skill_load on a path that exists, given the file content when the
read succeeds (none models a failed file_read_all, including attempting
to read a directory as a regular file).  Chooses the TOML dialect on a
.toml suffix or a [skill] marker in the content, otherwise the Markdown
dialect with the extension-stripped basename as the name hint; stamps
the location and the load time and marks the skill loaded. -/
def skill_load_file (now : Nat) (path : String) (content : Option String) : Option skill_t :=
  match content with
  | none => none
  | some text =>
    let is_toml := str_ends_with path ".toml" || contains_skill_marker text
    let manifest :=
      if is_toml then skill_manifest_parse_toml text
      else skill_manifest_parse_md text (drop_extension (file_basename path))
    some { manifest := { manifest with location := path }, loaded := true, load_time := now }

/-- One entry of the directory listing seen by skill_load_from_directory.
A file entry carries its content when readable (none when the read
fails).  A sub-directory entry records whether SKILL.toml exists inside
it (and, when it exists, its content when readable), and whether a
SKILL.md or skill.json file is present; the scanner in the source never
consults the last two fields. -/
inductive dir_entry where
  | file (name : String) (content : Option String)
  | subdir (name : String) (skill_toml : Option (Option String))
      (has_skill_md : Bool) (has_skill_json : Bool)
deriving DecidableEq, Repr

/-- The d_name of a directory entry. -/
def dir_entry.entry_name : dir_entry → String
  | .file n _ => n
  | .subdir n _ _ _ => n

/-- Suffix test used by the scanner on the entry path. -/
def is_manifest_suffix (path : String) : Bool :=
  str_ends_with path ".toml" || str_ends_with path ".md" || str_ends_with path ".json"

/-- Per-entry work of the scan loop in skill_load_from_directory: a file
entry is attempted iff its path has a manifest suffix; a sub-directory
entry is redirected to its SKILL.toml iff that file exists, and is
otherwise never loaded (when the sub-directory name itself has a
manifest suffix the loader is invoked on the directory path, where
file_read_all fails, so no skill results either way). -/
def load_dir_entry (now : Nat) (dir_path : String) : dir_entry → Option skill_t
  | .file n content =>
    if is_manifest_suffix (dir_path ++ "/" ++ n) then
      skill_load_file now (dir_path ++ "/" ++ n) content
    else none
  | .subdir n skill_toml _ _ =>
    match skill_toml with
    | some content => skill_load_file now (dir_path ++ "/" ++ n ++ "/SKILL.toml") content
    | none => none

/-- The scan loop of skill_load_from_directory: skip the dot entries,
attempt each remaining entry, and on success push the skill directly
onto the registry (no skill_register call) while also collecting it
into the returned array. -/
def skill_load_from_directory_aux (now : Nat) (dir_path : String) :
    List dir_entry → skill_registry_t → List skill_t → (List skill_t × Nat) × skill_registry_t
  | [], reg, acc => ((acc, acc.length), reg)
  | e :: rest, reg, acc =>
    if e.entry_name == "." || e.entry_name == ".." then
      skill_load_from_directory_aux now dir_path rest reg acc
    else
      match load_dir_entry now dir_path e with
      | some skill =>
        skill_load_from_directory_aux now dir_path rest (registry_push skill reg) (acc ++ [skill])
      | none => skill_load_from_directory_aux now dir_path rest reg acc

/-- skill_load_from_directory: scan the listing of dir_path against the
registry state reg, returning (loaded skills, count) and the new
registry state. -/
def skill_load_from_directory (now : Nat) (dir_path : String)
    (entries : List dir_entry) (reg : skill_registry_t) :
    (List skill_t × Nat) × skill_registry_t :=
  skill_load_from_directory_aux now dir_path entries reg []

/-- One entry considered on its own: nothing for the dot entries,
otherwise the outcome of loading that entry. -/
def scan_entry (now : Nat) (dir_path : String) (e : dir_entry) : Option skill_t :=
  if e.entry_name == "." || e.entry_name == ".." then none
  else load_dir_entry now dir_path e

/-- Characterization used to state fault isolation: the skills obtained
by loading each entry independently, keeping the successes in listing
order. -/
def dir_loaded_skills (now : Nat) (dir_path : String) (entries : List dir_entry) : List skill_t :=
  entries.filterMap (scan_entry now dir_path)

/-- OPEN_SKILLS_SYNC_INTERVAL_SECS: seven days, in seconds. -/
def OPEN_SKILLS_SYNC_INTERVAL_SECS : Int := 60 * 60 * 24 * 7

/-- skill_should_sync_open_skills, as a function of the marker state (the
mtime of the sync marker file when it exists and can be stat-ed, none
when it is absent) and the current clock: sync when the marker is
absent or the interval has strictly elapsed. -/
def skill_should_sync_open_skills (marker_mtime : Option Int) (now : Int) : Bool :=
  match marker_mtime with
  | none => true
  | some last_sync => decide (now - last_sync > OPEN_SKILLS_SYNC_INTERVAL_SECS)

/-- skill_mark_open_skills_synced: rewrite the marker file, so its mtime
becomes the current clock value. -/
def skill_mark_open_skills_synced (now : Int) : err_t × Option Int :=
  (err_t.ok, some now)

/-- tool_result_t: the in-band result written by skill_execute_tool. -/
structure tool_result_t where
  output : String
  success : Bool
  exit_code : Int
deriving DecidableEq, Repr

/-- Command construction in the shell branch of skill_execute_tool: the
tool command, then a space and the caller arguments when non-empty. -/
def build_shell_command (command : String) (args : String) : String :=
  if args.length > 0 then command ++ " " ++ args else command

/-- skill_execute_tool (the str_t-argument dispatcher): reject an
unloaded skill, resolve the tool by name, then branch on the kind.  The
shell branch hands the built command to the external shell_execute
collaborator, fills the result from its outcome, and returns the
collaborator error code as its own return value.  The builtin branch
recognizes the echo selector and reports unknown selectors as a failed
result with ERR_OK.  Any other kind yields a failed result and
ERR_NOT_IMPLEMENTED.  The Option in the return models whether the
result out-parameter was written. -/
def skill_execute_tool (shell_execute : String → err_t × String)
    (skill : skill_t) (tool_name : String) (args : String) :
    err_t × Option tool_result_t :=
  if skill.loaded = false then (err_t.invalid_argument, none)
  else
    match skill.manifest.tools.find? (fun t => t.name == tool_name) with
    | none => (err_t.not_found, none)
    | some tool =>
      if tool.kind == "shell" then
        let r := shell_execute (build_shell_command tool.command args)
        if r.1 = err_t.ok then
          (err_t.ok, some { output := r.2, success := true, exit_code := 0 })
        else
          (r.1, some { output := "Command execution failed", success := false, exit_code := -1 })
      else if tool.kind == "builtin" then
        if tool.command == "echo" then
          (err_t.ok, some { output := "Echo from skill" ++ (if args.length > 0 then ": " ++ args else "")
                            success := true, exit_code := 0 })
        else
          (err_t.ok, some { output := "Unknown built-in tool: " ++ tool.command
                            success := false, exit_code := -1 })
      else
        (err_t.not_implemented,
         some { output := "Unsupported tool kind: " ++ tool.kind, success := false, exit_code := -1 })

/-
Concrete inputs used by the counterexamples and witnesses below.
-/

/-- A valid skill named git-tools, as in the duplicate-name scenario of
the specification. -/
def skill_gittools : skill_t :=
  { manifest := { skill_manifest_init with name := "git-tools", description := "Git tools skill" }
    loaded := true, load_time := 0 }

/-- Registry state after registering skill_gittools into a freshly
initialized registry. -/
def registry_with_gittools : skill_registry_t :=
  (skill_register skill_gittools skill_registry_init).2

/-- A skill that collides with git-tools by name but fails validation
(empty description). -/
def skill_dup_invalid : skill_t :=
  { manifest := { skill_manifest_init with name := "git-tools" }, loaded := true, load_time := 0 }

/-- A valid skill that collides with git-tools by name. -/
def skill_dup_valid : skill_t :=
  { manifest := { skill_manifest_init with name := "git-tools", description := "Another git skill" }
    loaded := true, load_time := 0 }

/-- A directory listing with two readable TOML files. -/
def dup_toml_entries : List dir_entry :=
  [dir_entry.file "a.toml" (some "alpha"), dir_entry.file "b.toml" (some "beta")]

/-- A sub-directory that contains only SKILL.md (no SKILL.toml, no
skill.json). -/
def md_only_subdir : dir_entry := dir_entry.subdir "mydir" none true false

/-- A well-formed TOML manifest text naming the weather skill. -/
def c4_toml_text : String :=
  "[skill]\nname = \"weather\"\ndescription = \"Weather tools\"\nversion = \"1.0.0\"\n"

/-- The shell tool of the weather scenario in the specification. -/
def tool_fetch : skill_tool_t :=
  { name := "fetch", description := "Fetch the weather", kind := "shell"
    command := "curl wttr.in", args := [] }

/-- A loaded skill carrying the fetch shell tool. -/
def skill_with_fetch : skill_t :=
  { manifest := { skill_manifest_init with
      name := "weather", description := "Weather skill", tools := [tool_fetch] }
    loaded := true, load_time := 0 }

/-- A command-execution collaborator whose child process fails. -/
def failing_shell : String → err_t × String := fun _ => (err_t.file_read_failed, "")

/-- A command-execution collaborator whose child process succeeds with
fixed output. -/
def ok_shell : String → err_t × String := fun _ => (err_t.ok, "sunny")

/-
Helper lemmas.
-/

theorem registry_names_push (skill : skill_t) (reg : skill_registry_t) :
    registry_names (registry_push skill reg) = registry_names reg ++ [skill.manifest.name] := by
  simp [registry_names, registry_push]

theorem register_preserves_nodup (skill : skill_t) (reg : skill_registry_t)
    (h : (registry_names reg).Nodup) :
    (registry_names (skill_register skill reg).2).Nodup := by
  unfold skill_register
  by_cases hv : skill_validate skill = err_t.ok
  · cases hc : reg.skills.any (fun s => s.manifest.name == skill.manifest.name) with
    | true => simpa [hv, hc] using h
    | false =>
      have hnot : skill.manifest.name ∉ registry_names reg := by
        intro hmem
        simp only [registry_names, List.mem_map] at hmem
        obtain ⟨s, hs, heq⟩ := hmem
        have : reg.skills.any (fun s => s.manifest.name == skill.manifest.name) = true :=
          List.any_eq_true.mpr ⟨s, hs, by simpa [beq_iff_eq] using heq⟩
        simp [hc] at this
      have hpush : (registry_names (registry_push skill reg)).Nodup := by
        rw [registry_names_push]
        simp [List.nodup_append, h, hnot]
      simpa [hv, hc] using hpush
  · simpa [hv] using h

theorem register_sequence_nodup (ss : List skill_t) :
    ∀ reg : skill_registry_t, (registry_names reg).Nodup →
      (registry_names (register_sequence ss reg)).Nodup := by
  induction ss with
  | nil => intro reg h; simpa [register_sequence] using h
  | cons s rest ih =>
    intro reg h
    exact ih _ (register_preserves_nodup s reg h)

theorem first_content_line_eq_find (lines : List String) :
    first_content_line lines =
      ((lines.find? (fun line => line.length > 0 && line.front != '#')).getD "") := by
  induction lines with
  | nil => rfl
  | cons l rest ih =>
    by_cases h : (l.length > 0 && l.front != '#') = true
    · simp [first_content_line, h, List.find?_cons_of_pos]
    · simp [first_content_line, h, List.find?_cons_of_neg, ih]

theorem load_from_directory_aux_spec (now : Nat) (dir_path : String) :
    ∀ (entries : List dir_entry) (reg : skill_registry_t) (acc : List skill_t),
      (skill_load_from_directory_aux now dir_path entries reg acc).1.1 =
        acc ++ dir_loaded_skills now dir_path entries ∧
      (skill_load_from_directory_aux now dir_path entries reg acc).1.2 =
        (acc ++ dir_loaded_skills now dir_path entries).length ∧
      ((skill_load_from_directory_aux now dir_path entries reg acc).2).skills =
        reg.skills ++ dir_loaded_skills now dir_path entries := by
  intro entries
  induction entries with
  | nil =>
    intro reg acc
    simp [skill_load_from_directory_aux, dir_loaded_skills]
  | cons e rest ih =>
    intro reg acc
    cases hd : (e.entry_name == "." || e.entry_name == "..") with
    | true =>
      have h := ih reg acc
      simpa [skill_load_from_directory_aux, dir_loaded_skills, scan_entry,
        List.filterMap_cons, hd] using h
    | false =>
      cases hl : load_dir_entry now dir_path e with
      | none =>
        have h := ih reg acc
        simpa [skill_load_from_directory_aux, dir_loaded_skills, scan_entry,
          List.filterMap_cons, hd, hl] using h
      | some sk =>
        have h := ih (registry_push sk reg) (acc ++ [sk])
        simpa [skill_load_from_directory_aux, dir_loaded_skills, scan_entry,
          List.filterMap_cons, hd, hl, registry_push] using h

/-
Claim theorems.
-/

/-- C1 (counterexample to the claim as stated): with the valid skill
git-tools already registered, a register call with a colliding but
invalid skill (empty description) returns ValidationFailed, not
AlreadyExists: validation runs before the uniqueness check. -/
theorem register_collision_validation_counterexample :
    skill_dup_invalid.manifest.name = "git-tools" ∧
    registry_names registry_with_gittools = ["git-tools"] ∧
    (skill_register skill_dup_invalid registry_with_gittools).1 = err_t.validation_failed ∧
    (skill_register skill_dup_invalid registry_with_gittools).1 ≠ err_t.already_exists := by
  refine ⟨rfl, rfl, rfl, ?_⟩
  decide

/-- C1 (amended): for every sequence of register calls on a freshly
initialized registry the registry never holds two skills with equal
manifest name, and a register call whose skill passes validation and
whose manifest name equals that of an already-registered entry returns
AlreadyExists and leaves the registry state unchanged. -/
theorem register_uniqueness_amended :
    (∀ ss : List skill_t,
      (registry_names (register_sequence ss skill_registry_init)).Nodup) ∧
    (∀ (skill : skill_t) (reg : skill_registry_t),
      skill_validate skill = err_t.ok →
      (∃ s0 ∈ reg.skills, s0.manifest.name = skill.manifest.name) →
      skill_register skill reg = (err_t.already_exists, reg)) := by
  constructor
  · intro ss
    apply register_sequence_nodup
    simp [registry_names, skill_registry_init]
  · intro skill reg hv hex
    obtain ⟨s0, hmem, hname⟩ := hex
    have hc : (reg.skills.any (fun s => s.manifest.name == skill.manifest.name)) = true := by
      simp only [List.any_eq_true, beq_iff_eq]
      exact ⟨s0, hmem, hname⟩
    simp [skill_register, hv, hc]

/-- C1 (witness): registering the valid duplicate git-tools skill over a
registry already holding git-tools yields AlreadyExists and returns the
registry unchanged. -/
theorem register_uniqueness_amended_witness :
    skill_register skill_dup_valid registry_with_gittools =
      (err_t.already_exists, registry_with_gittools) := by
  exact register_uniqueness_amended.2 skill_dup_valid registry_with_gittools (by decide)
    ⟨skill_gittools, by decide, rfl⟩

/-- C2 (code evaluated at the failing input): loading a directory with
two readable TOML files inserts both skills directly into the registry
with no uniqueness check; both parse to the name unknown under the stub
parser, so the registry ends with two entries of equal manifest name. -/
theorem load_from_directory_duplicate_names :
    registry_names (skill_load_from_directory 0 "skills" dup_toml_entries skill_registry_init).2 =
      ["unknown", "unknown"] ∧
    ¬ (registry_names
        (skill_load_from_directory 0 "skills" dup_toml_entries skill_registry_init).2).Nodup := by
  refine ⟨rfl, ?_⟩
  decide

/-- C3: for every directory listing, loadDirectory returns exactly the
skills whose individual load succeeds (in listing order), reports their
number as the count, and appends exactly those skills to the registry;
entries whose load fails are skipped without affecting the rest of the
scan. -/
theorem load_from_directory_fault_isolation (now : Nat) (dir_path : String)
    (entries : List dir_entry) (reg : skill_registry_t) :
    (skill_load_from_directory now dir_path entries reg).1.1 =
      dir_loaded_skills now dir_path entries ∧
    (skill_load_from_directory now dir_path entries reg).1.2 =
      (dir_loaded_skills now dir_path entries).length ∧
    ((skill_load_from_directory now dir_path entries reg).2).skills =
      reg.skills ++ dir_loaded_skills now dir_path entries := by
  have h := load_from_directory_aux_spec now dir_path entries reg []
  simpa [skill_load_from_directory] using h

/-- C4 (code evaluated at the failing input): the TOML parser is an
unimplemented stub; parsing a well-formed manifest that declares the
name weather yields the fixed name unknown, and the parse result does
not depend on the input text at all, so the parse-then-toJson round
trip cannot reproduce the input fields. -/
theorem parse_toml_stub_ignores_input :
    (skill_manifest_parse_toml c4_toml_text).name = "unknown" ∧
    (skill_manifest_parse_toml c4_toml_text).name ≠ "weather" ∧
    ∀ t : String, skill_manifest_parse_toml t = skill_manifest_parse_toml "" := by
  refine ⟨rfl, ?_, fun _ => rfl⟩
  decide

/-- C5: shouldSync is true when the marker is absent; after markSynced
at clock t it is true exactly for clock values strictly beyond t plus
the seven-day interval and false up to and including that bound; in
general, with a marker present it is true exactly when now minus the
marker mtime strictly exceeds the interval. -/
theorem should_sync_staleness_gate (t now : Int) :
    skill_should_sync_open_skills none now = true ∧
    ((skill_should_sync_open_skills (skill_mark_open_skills_synced t).2 now = true) ↔
      now > t + OPEN_SKILLS_SYNC_INTERVAL_SECS) ∧
    ((skill_should_sync_open_skills (skill_mark_open_skills_synced t).2 now = false) ↔
      now ≤ t + OPEN_SKILLS_SYNC_INTERVAL_SECS) ∧
    (∀ m : Int, skill_should_sync_open_skills (some m) now = true ↔
      now - m > OPEN_SKILLS_SYNC_INTERVAL_SECS) := by
  refine ⟨rfl, ?_, ?_, ?_⟩ <;>
    simp [skill_should_sync_open_skills, skill_mark_open_skills_synced,
      OPEN_SKILLS_SYNC_INTERVAL_SECS] <;>
    omega

/-- C6: for every markdown document and hint name, the markdown parser
produces a manifest named by the hint, with version 0.1.0, no tools, no
prompts, and a description equal to the first newline-separated line of
the document that is non-empty and does not begin with the character #
(empty when no such line exists). -/
theorem parse_md_extraction (doc hint : String) :
    (skill_manifest_parse_md doc hint).name = hint ∧
    (skill_manifest_parse_md doc hint).version = "0.1.0" ∧
    (skill_manifest_parse_md doc hint).tools = [] ∧
    (skill_manifest_parse_md doc hint).prompts = [] ∧
    (skill_manifest_parse_md doc hint).description =
      (((doc.splitOn "\n").find? (fun line => line.length > 0 && line.front != '#')).getD "") := by
  refine ⟨rfl, rfl, rfl, rfl, ?_⟩
  simpa [skill_manifest_parse_md] using first_content_line_eq_find (doc.splitOn "\n")

/-- C7 (counterexample to the claim as stated): with a loaded skill, a
resolvable shell tool, and a collaborator that reports a failed child
process, skill_execute_tool fills the result with success false but
returns the collaborator error code out of band (its return value is
not ERR_OK), and the result carries a fixed failure message rather than
the child output. -/
theorem execute_tool_shell_failure_counterexample :
    skill_execute_tool failing_shell skill_with_fetch "fetch" "" =
      (err_t.file_read_failed,
       some { output := "Command execution failed", success := false, exit_code := -1 }) ∧
    err_t.file_read_failed ≠ err_t.ok := by
  refine ⟨rfl, ?_⟩
  decide

/-- C7 (amended): for a loaded skill and a resolvable shell tool, when
the collaborator succeeds the dispatcher returns ERR_OK and a result
holding the collaborator output with success true and exit code zero;
when the collaborator fails the dispatcher still writes an in-band
result with success false, exit code minus one and a fixed failure
message, but returns the collaborator error code as its own return
value. -/
theorem execute_tool_shell_result_amended (shell_execute : String → err_t × String)
    (skill : skill_t) (tool_name args : String) (tool : skill_tool_t)
    (hl : skill.loaded = true)
    (hf : skill.manifest.tools.find? (fun t => t.name == tool_name) = some tool)
    (hk : tool.kind = "shell") :
    ((shell_execute (build_shell_command tool.command args)).1 = err_t.ok →
      skill_execute_tool shell_execute skill tool_name args =
        (err_t.ok, some { output := (shell_execute (build_shell_command tool.command args)).2
                          success := true, exit_code := 0 })) ∧
    ((shell_execute (build_shell_command tool.command args)).1 ≠ err_t.ok →
      skill_execute_tool shell_execute skill tool_name args =
        ((shell_execute (build_shell_command tool.command args)).1,
         some { output := "Command execution failed", success := false, exit_code := -1 })) := by
  constructor <;> intro hr <;> simp [skill_execute_tool, hl, hf, hk, hr]

/-- C7 (witness): executing the fetch tool of the loaded weather skill
with a succeeding collaborator yields ERR_OK and a successful result
holding the collaborator output. -/
theorem execute_tool_shell_result_amended_witness :
    skill_execute_tool ok_shell skill_with_fetch "fetch" "tokyo" =
      (err_t.ok, some { output := "sunny", success := true, exit_code := 0 }) := by
  exact (execute_tool_shell_result_amended ok_shell skill_with_fetch "fetch" "tokyo"
    tool_fetch rfl rfl rfl).1 rfl

/-- C8: unloading a skill twice equals unloading it once; the loaded
flag is false after either, and both calls return ERR_OK (the second
call is a no-op, not an error). -/
theorem unload_idempotent (skill : skill_t) :
    skill_unload ((skill_unload skill).2) = skill_unload skill ∧
    ((skill_unload skill).2).loaded = false ∧
    (skill_unload skill).1 = err_t.ok ∧
    (skill_unload ((skill_unload skill).2)).1 = err_t.ok :=
  ⟨rfl, rfl, rfl, rfl⟩

/-- C9 (code evaluated at the failing input): a sub-directory that
contains only SKILL.md is not recognized as a skill (the scan loads
nothing and leaves the registry untouched), while the same sub-directory
with a SKILL.toml would load; the scanner probes only SKILL.toml inside
sub-directories. -/
theorem subdir_skill_md_not_loaded :
    skill_load_from_directory 0 "skills" [md_only_subdir] skill_registry_init =
      (([], 0), skill_registry_init) ∧
    (load_dir_entry 0 "skills" (dir_entry.subdir "mydir" (some (some "x")) false false)).isSome =
      true := by
  exact ⟨rfl, rfl⟩

/-- C10: for every skill with loaded false, every tool name, every
argument string and every collaborator, skill_execute_tool returns
ERR_INVALID_ARGUMENT without writing a result and without resolving or
executing any tool. -/
theorem execute_tool_requires_loaded (shell_execute : String → err_t × String)
    (skill : skill_t) (tool_name args : String) (h : skill.loaded = false) :
    skill_execute_tool shell_execute skill tool_name args = (err_t.invalid_argument, none) := by
  simp [skill_execute_tool, h]

/-- C10 (witness): executing a tool on the weather skill after
skill_unload returns ERR_INVALID_ARGUMENT with no result. -/
theorem execute_tool_requires_loaded_witness :
    skill_execute_tool failing_shell ((skill_unload skill_with_fetch).2) "fetch" "" =
      (err_t.invalid_argument, none) := by
  exact execute_tool_requires_loaded failing_shell ((skill_unload skill_with_fetch).2) "fetch" "" rfl

end Cclaw
